import Mathlib

/-!
Shallow embedding of `src/pbrtexture/pbrtexture.cpp` (Vulkan PBR-texture
example).  Floating-point scalars are modelled exactly as rationals;
the `uint32_t` object index is a `Nat` with explicit `% 2^32` where the
C++ increment and size cast may wrap.  External library functions
(`sin`, `cos`, `glm::radians`) are taken as function parameters, and GPU
handles (buffers, descriptor sets, framebuffers) as opaque `Nat` ids.
-/

/-- A `glm::vec4`, components modelled exactly as rationals. -/
structure Vec4 where
  x : ℚ
  y : ℚ
  z : ℚ
  w : ℚ
deriving DecidableEq

/-- A `glm::vec3`, components modelled exactly as rationals. -/
structure Vec3 where
  x : ℚ
  y : ℚ
  z : ℚ
deriving DecidableEq

/-- The shader-parameter uniform block `VulkanExample::UBOParams`:
four light positions `lights[4]` (modelled as four named fields) and the
two scalar factors. -/
structure UBOParams where
  lights0 : Vec4
  lights1 : Vec4
  lights2 : Vec4
  lights3 : Vec4
  roughness : ℚ
  metallic : ℚ
deriving DecidableEq

/-- A loaded `vks::Model`: vertex/index buffer handles plus the index
count used by `vkCmdDrawIndexed`. -/
structure Model where
  vertexBuffer : Nat
  indexBuffer : Nat
  indexCount : Nat
deriving DecidableEq

/-- `VulkanExample::Meshes`: the skybox model, the selectable objects and
the index of the active object (`uint32_t objectIndex = 0`). -/
structure Meshes where
  skybox : Model
  objects : List Model
  objectIndex : Nat
deriving DecidableEq

/-- The mutable state of `VulkanExample` touched by the key handlers:
the mesh list with its active index and the shader-parameter block. -/
structure VulkanExampleState where
  models : Meshes
  uboParams : UBOParams
deriving DecidableEq

/-- `glm::clamp(x, lo, hi) = min(max(x, lo), hi)`. -/
def clamp (x lo hi : ℚ) : ℚ := min (max x lo) hi

/-- `VulkanExample::changeRoughnessFactor`:
`uboParams.roughness = glm::clamp(uboParams.roughness + delta, 0.05f, 1.0f)`
(the subsequent `updateParams`/`updateTextOverlay` calls touch no modelled
field). -/
def changeRoughnessFactor (delta : ℚ) (s : VulkanExampleState) : VulkanExampleState :=
  { s with uboParams :=
    { s.uboParams with roughness := clamp (s.uboParams.roughness + delta) (mkRat 1 20) 1 } }

/-- `VulkanExample::changeMetallicFactor`:
`uboParams.metallic = glm::clamp(uboParams.metallic + delta, 0.0f, 1.0f)`. -/
def changeMetallicFactor (delta : ℚ) (s : VulkanExampleState) : VulkanExampleState :=
  { s with uboParams :=
    { s.uboParams with metallic := clamp (s.uboParams.metallic + delta) 0 1 } }

/-- Apply a finite sequence of calls of a delta-taking handler, first
delta first. -/
def applyDeltas (f : ℚ → VulkanExampleState → VulkanExampleState)
    (ds : List ℚ) (s : VulkanExampleState) : VulkanExampleState :=
  ds.foldl (fun s d => f d s) s

/-- The index update of `VulkanExample::toggleObject`:
`objectIndex++` on a `uint32_t` (wraps at `2^32`), then reset to `0` when
`objectIndex >= static_cast<uint32_t>(objects.size())`. -/
def toggleMeshes (m : Meshes) : Meshes :=
  let i := (m.objectIndex + 1) % 2 ^ 32
  if m.objects.length % 2 ^ 32 ≤ i then
    { m with objectIndex := 0 }
  else
    { m with objectIndex := i }

/-- `VulkanExample::toggleObject`: updates the object index; the
subsequent `updateUniformBuffers`/`reBuildCommandBuffers` calls touch no
modelled field. -/
def toggleObject (s : VulkanExampleState) : VulkanExampleState :=
  { s with models := toggleMeshes s.models }

/-- The six key codes dispatched by `VulkanExample::keyPressed`.  They
are platform constants of the external framework; a C++ `switch` requires
its case labels to be pairwise distinct. -/
structure KeyCodes where
  KEY_SPACE : Nat
  GAMEPAD_BUTTON_X : Nat
  KEY_F2 : Nat
  KEY_F3 : Nat
  KEY_F4 : Nat
  KEY_F5 : Nat

/-- `VulkanExample::keyPressed`: the `switch` on `keyCode`; a key that
matches no case leaves the state unchanged. -/
def keyPressed (kc : KeyCodes) (keyCode : Nat) (s : VulkanExampleState) : VulkanExampleState :=
  if keyCode = kc.KEY_SPACE ∨ keyCode = kc.GAMEPAD_BUTTON_X then toggleObject s
  else if keyCode = kc.KEY_F2 then changeRoughnessFactor (mkRat (-1) 100) s
  else if keyCode = kc.KEY_F3 then changeRoughnessFactor (mkRat 1 100) s
  else if keyCode = kc.KEY_F4 then changeMetallicFactor (mkRat (-1) 100) s
  else if keyCode = kc.KEY_F5 then changeMetallicFactor (mkRat 1 100) s
  else s

/-- `VulkanExample::updateLights`, with the external `sin`, `cos` and
`glm::radians` passed as function parameters: all four lights are first
rewritten to the fixed configuration (with `p = 15`), then, when not
paused, lights 0 and 1 get sine/cosine components of the angle
`radians(timer * 360)` scaled by 20. -/
def updateLights (sinf cosf radiansf : ℚ → ℚ) (paused : Bool) (timer : ℚ)
    (u : UBOParams) : UBOParams :=
  let u := { u with
    lights0 := ⟨-15, mkRat (-15) 2, -15, 1⟩
    lights1 := ⟨-15, mkRat (-15) 2, 15, 1⟩
    lights2 := ⟨15, mkRat (-15) 2, 15, 1⟩
    lights3 := ⟨15, mkRat (-15) 2, -15, 1⟩ }
  if !paused then
    { u with
      lights0 := { u.lights0 with
        x := sinf (radiansf (timer * 360)) * 20
        z := cosf (radiansf (timer * 360)) * 20 }
      lights1 := { u.lights1 with
        x := cosf (radiansf (timer * 360)) * 20
        y := sinf (radiansf (timer * 360)) * 20 } }
  else
    u

/-- A command recorded into a `VkCommandBuffer` by
`VulkanExample::buildCommandBuffers`. -/
inductive Cmd where
  | beginRenderPass (framebuffer : Nat)
  | setViewport (width height : Nat)
  | setScissor (width height : Nat)
  | bindPipeline
  | bindVertexBuffer (buffer : Nat)
  | bindIndexBuffer (buffer : Nat)
  | bindDescriptorSet (set : Nat)
  | pushConstants (pos : Vec3)
  | drawIndexed (indexCount : Nat)
  | endRenderPass
deriving DecidableEq

/-- `true` exactly on `Cmd.drawIndexed`. -/
def Cmd.isDraw : Cmd → Bool
  | .drawIndexed _ => true
  | _ => false

/-- `true` exactly on `Cmd.bindVertexBuffer`. -/
def Cmd.isBindVertex : Cmd → Bool
  | .bindVertexBuffer _ => true
  | _ => false

/-- `true` exactly on `Cmd.bindIndexBuffer`. -/
def Cmd.isBindIndex : Cmd → Bool
  | .bindIndexBuffer _ => true
  | _ => false

/-- The body of the `buildCommandBuffers` loop for frame buffer `fb`:
render-pass begin, viewport/scissor, pipeline and the selected object's
vertex/index buffers, then three descriptor-set/push-constant/draw
triples (plastic at `(0,0,0)`, metal at `(0,0,2.5)`, stone at
`(0,0,-2.5)`), each draw of `objects[objectIndex].indexCount` indices. -/
def buildCommandBuffer (width height fb : Nat) (plasticDS metalDS stoneDS : Nat)
    (obj : Model) : List Cmd :=
  [ .beginRenderPass fb,
    .setViewport width height,
    .setScissor width height,
    .bindPipeline,
    .bindVertexBuffer obj.vertexBuffer,
    .bindIndexBuffer obj.indexBuffer,
    .bindDescriptorSet plasticDS,
    .pushConstants ⟨0, 0, 0⟩,
    .drawIndexed obj.indexCount,
    .bindDescriptorSet metalDS,
    .pushConstants ⟨0, 0, mkRat 5 2⟩,
    .drawIndexed obj.indexCount,
    .bindDescriptorSet stoneDS,
    .pushConstants ⟨0, 0, mkRat (-5) 2⟩,
    .drawIndexed obj.indexCount,
    .endRenderPass ]

/-- `VulkanExample::buildCommandBuffers`: one command buffer per entry of
`drawCmdBuffers` (frame buffer `i` for buffer `i`), each drawing
`models.objects[models.objectIndex]`. -/
def buildCommandBuffers (numBuffers width height : Nat)
    (plasticDS metalDS stoneDS : Nat) (m : Meshes) : List (List Cmd) :=
  (List.range numBuffers).map fun i =>
    buildCommandBuffer width height i plasticDS metalDS stoneDS
      (m.objects.getD m.objectIndex ⟨0, 0, 0⟩)

/-- A texture format as used by this file. -/
inductive VkFormat where
  | BC3_UNORM_BLOCK
  | R8_UNORM
  | UNDEFINED
deriving DecidableEq

/-- `PBRTextureInfo`: a texture file name and its format. -/
structure PBRTextureInfo where
  filename : String
  fmt : VkFormat
deriving DecidableEq

/-- A loaded `vks::Texture2D`, identified by the file it was loaded from
and the format requested. -/
structure Texture2D where
  path : String
  fmt : VkFormat
deriving DecidableEq

/-- `PBRMaterial::Textures`: the five textures a material owns. -/
structure PBRTextures where
  albedo : Texture2D
  normal : Texture2D
  metallic : Texture2D
  roughness : Texture2D
  ao : Texture2D
deriving DecidableEq

/-- `PBRMaterial`: name, five owned textures, one descriptor set
(allocated later by `setupDescriptorSets`). -/
structure PBRMaterial where
  name : String
  textures : PBRTextures
  descriptorSet : Nat
deriving DecidableEq

/-- The five textures of a material as a list. -/
def PBRMaterial.textureList (m : PBRMaterial) : List Texture2D :=
  [m.textures.albedo, m.textures.normal, m.textures.metallic,
   m.textures.roughness, m.textures.ao]

/-- The `PBRMaterial` constructor: each texture is loaded from
`path + info.filename` with `info.format`. -/
def mkPBRMaterial (name path : String)
    (albedo normals metallic roughness ao : PBRTextureInfo) : PBRMaterial :=
  { name := name
    textures :=
      { albedo := ⟨path ++ albedo.filename, albedo.fmt⟩
        normal := ⟨path ++ normals.filename, normals.fmt⟩
        metallic := ⟨path ++ metallic.filename, metallic.fmt⟩
        roughness := ⟨path ++ roughness.filename, roughness.fmt⟩
        ao := ⟨path ++ ao.filename, ao.fmt⟩ }
    descriptorSet := 0 }

/-- `VulkanExample::Materials`: the three hardcoded materials. -/
structure Materials where
  plastic : PBRMaterial
  metal : PBRMaterial
  stone : PBRMaterial
deriving DecidableEq

/-- The material creation in `VulkanExample::loadAssets` (the model
loading above it touches `models`, not `materials`): three materials,
each from five fixed texture files under
`getAssetPath() + "textures/pbr/"`. -/
def loadAssetsMaterials (assetPath : String) : Materials :=
  { plastic := mkPBRMaterial "plastic" (assetPath ++ "textures/pbr/")
      ⟨"scuffed_plastic_albedo_bc3.ktx", .BC3_UNORM_BLOCK⟩
      ⟨"scuffed_plastic_normals_bc3.ktx", .BC3_UNORM_BLOCK⟩
      ⟨"scuffed_plastic_metallic_r8.ktx", .R8_UNORM⟩
      ⟨"scuffed_plastic_roughness_r8.ktx", .R8_UNORM⟩
      ⟨"scuffed_plastic_ao_r8.ktx", .R8_UNORM⟩
    metal := mkPBRMaterial "metal" (assetPath ++ "textures/pbr/")
      ⟨"greasy_metal_albedo_bc3.ktx", .BC3_UNORM_BLOCK⟩
      ⟨"greasy_metal_normals_bc3.ktx", .BC3_UNORM_BLOCK⟩
      ⟨"greasy_metal_metallic_r8.ktx", .R8_UNORM⟩
      ⟨"greasy_metal_roughness_r8.ktx", .R8_UNORM⟩
      ⟨"_dummy_ao_r8.ktx", .R8_UNORM⟩
    stone := mkPBRMaterial "stone" (assetPath ++ "textures/pbr/")
      ⟨"bricks_albedo_bc3.ktx", .BC3_UNORM_BLOCK⟩
      ⟨"bricks_normals_bc3.ktx", .BC3_UNORM_BLOCK⟩
      ⟨"_dummy_metallic_r8.ktx", .R8_UNORM⟩
      ⟨"bricks_roughness_r8.ktx", .R8_UNORM⟩
      ⟨"bricks_ao_r8.ktx", .R8_UNORM⟩ }

/-- A descriptor type as used by this file. -/
inductive DescriptorType where
  | uniformBuffer
  | combinedImageSampler
deriving DecidableEq

/-- What a descriptor write points at: one of the two shared uniform
buffers (`uniformBuffers.object` holds `uboMatrices`,
`uniformBuffers.params` holds `uboParams`), or a texture. -/
inductive DescriptorInfo where
  | matricesBuffer
  | paramsBuffer
  | image (t : Texture2D)
deriving DecidableEq

/-- A `VkWriteDescriptorSet` as assembled in `setupDescriptorSets`. -/
structure WriteDescriptorSet where
  dstSet : Nat
  descriptorType : DescriptorType
  dstBinding : Nat
  info : DescriptorInfo
deriving DecidableEq

/-- The seven descriptor writes `setupDescriptorSets` issues for one
material: bindings 0/1 are the shared matrices and params uniform
buffers, bindings 2-6 the material's albedo, normal, roughness, metallic
and ao textures. -/
def materialWrites (mat : PBRMaterial) : List WriteDescriptorSet :=
  [ ⟨mat.descriptorSet, .uniformBuffer, 0, .matricesBuffer⟩,
    ⟨mat.descriptorSet, .uniformBuffer, 1, .paramsBuffer⟩,
    ⟨mat.descriptorSet, .combinedImageSampler, 2, .image mat.textures.albedo⟩,
    ⟨mat.descriptorSet, .combinedImageSampler, 3, .image mat.textures.normal⟩,
    ⟨mat.descriptorSet, .combinedImageSampler, 4, .image mat.textures.roughness⟩,
    ⟨mat.descriptorSet, .combinedImageSampler, 5, .image mat.textures.metallic⟩,
    ⟨mat.descriptorSet, .combinedImageSampler, 6, .image mat.textures.ao⟩ ]

/-- `VulkanExample::setupDescriptorSets`: iterates over
`{plastic, metal, stone}`, allocates each material a descriptor set
(fresh handles, modelled as 0, 1, 2) and issues its seven writes.
Returns the updated materials and all writes issued, in order. -/
def setupDescriptorSets (ms : Materials) : Materials × List WriteDescriptorSet :=
  let plastic := { ms.plastic with descriptorSet := 0 }
  let metal := { ms.metal with descriptorSet := 1 }
  let stone := { ms.stone with descriptorSet := 2 }
  (⟨plastic, metal, stone⟩,
    materialWrites plastic ++ materialWrites metal ++ materialWrites stone)

/-- A concrete application state used to instantiate theorems: three
objects, active index 0, the default parameter block
(`roughness = 1.0f`, `metallic = 1.0f`). -/
def sampleState : VulkanExampleState :=
  { models :=
      { skybox := ⟨1, 2, 36⟩
        objects := [⟨10, 11, 100⟩, ⟨12, 13, 200⟩, ⟨14, 15, 300⟩]
        objectIndex := 0 }
    uboParams :=
      { lights0 := ⟨0, 0, 0, 0⟩
        lights1 := ⟨0, 0, 0, 0⟩
        lights2 := ⟨0, 0, 0, 0⟩
        lights3 := ⟨0, 0, 0, 0⟩
        roughness := 1
        metallic := 1 } }

/-- A concrete assignment of the six key codes (pairwise distinct, as a
C++ `switch` requires of its case labels). -/
def sampleKeyCodes : KeyCodes :=
  { KEY_SPACE := 32
    GAMEPAD_BUTTON_X := 1002
    KEY_F2 := 112
    KEY_F3 := 113
    KEY_F4 := 114
    KEY_F5 := 115 }

lemma clamp_le (x lo hi : ℚ) : clamp x lo hi ≤ hi := min_le_right _ _

lemma le_clamp (x lo hi : ℚ) (h : lo ≤ hi) : lo ≤ clamp x lo hi :=
  le_min (le_max_right _ _) h

/-- C1: starting from any roughness in [0.05, 1.0], after every finite
sequence of `changeRoughnessFactor` calls (hence after each individual
call, since every prefix of a sequence is a sequence) the roughness is
still in [0.05, 1.0]. -/
theorem roughness_stays_bounded (s : VulkanExampleState)
    (h : mkRat 1 20 ≤ s.uboParams.roughness ∧ s.uboParams.roughness ≤ 1)
    (ds : List ℚ) :
    mkRat 1 20 ≤ (applyDeltas changeRoughnessFactor ds s).uboParams.roughness ∧
      (applyDeltas changeRoughnessFactor ds s).uboParams.roughness ≤ 1 := by
  induction ds generalizing s with
  | nil => exact h
  | cons d ds ih =>
      exact ih (changeRoughnessFactor d s)
        ⟨le_clamp _ _ _ (by norm_num), clamp_le _ _ _⟩

/-- Witness for C1: roughness 1, two decrements of 0.01. -/
theorem roughness_stays_bounded_witness :
    (mkRat 1 20 ≤ sampleState.uboParams.roughness ∧ sampleState.uboParams.roughness ≤ 1) ∧
    (mkRat 1 20 ≤ (applyDeltas changeRoughnessFactor [mkRat (-1) 100, mkRat (-1) 100] sampleState).uboParams.roughness ∧
      (applyDeltas changeRoughnessFactor [mkRat (-1) 100, mkRat (-1) 100] sampleState).uboParams.roughness ≤ 1) :=
  ⟨by decide, roughness_stays_bounded sampleState (by decide) [mkRat (-1) 100, mkRat (-1) 100]⟩

/-- C2: starting from any metallic in [0.0, 1.0], after every finite
sequence of `changeMetallicFactor` calls (hence after each individual
call) the metallic factor is still in [0.0, 1.0]. -/
theorem metallic_stays_bounded (s : VulkanExampleState)
    (h : 0 ≤ s.uboParams.metallic ∧ s.uboParams.metallic ≤ 1)
    (ds : List ℚ) :
    0 ≤ (applyDeltas changeMetallicFactor ds s).uboParams.metallic ∧
      (applyDeltas changeMetallicFactor ds s).uboParams.metallic ≤ 1 := by
  induction ds generalizing s with
  | nil => exact h
  | cons d ds ih =>
      exact ih (changeMetallicFactor d s)
        ⟨le_clamp _ _ _ (by norm_num), clamp_le _ _ _⟩

/-- Witness for C2: metallic 1, two increments of 0.01. -/
theorem metallic_stays_bounded_witness :
    (0 ≤ sampleState.uboParams.metallic ∧ sampleState.uboParams.metallic ≤ 1) ∧
    (0 ≤ (applyDeltas changeMetallicFactor [mkRat 1 100, mkRat 1 100] sampleState).uboParams.metallic ∧
      (applyDeltas changeMetallicFactor [mkRat 1 100, mkRat 1 100] sampleState).uboParams.metallic ≤ 1) :=
  ⟨by decide, metallic_stays_bounded sampleState (by decide) [mkRat 1 100, mkRat 1 100]⟩

/-- C9: `changeRoughnessFactor` only changes `uboParams.roughness`,
leaving metallic, the four lights and the object index (and object list)
unchanged; `changeMetallicFactor` only changes `uboParams.metallic`,
leaving roughness, the lights and the object index unchanged. -/
theorem change_factor_frame (delta : ℚ) (s : VulkanExampleState) :
    ((changeRoughnessFactor delta s).uboParams.metallic = s.uboParams.metallic ∧
      (changeRoughnessFactor delta s).uboParams.lights0 = s.uboParams.lights0 ∧
      (changeRoughnessFactor delta s).uboParams.lights1 = s.uboParams.lights1 ∧
      (changeRoughnessFactor delta s).uboParams.lights2 = s.uboParams.lights2 ∧
      (changeRoughnessFactor delta s).uboParams.lights3 = s.uboParams.lights3 ∧
      (changeRoughnessFactor delta s).models = s.models) ∧
    ((changeMetallicFactor delta s).uboParams.roughness = s.uboParams.roughness ∧
      (changeMetallicFactor delta s).uboParams.lights0 = s.uboParams.lights0 ∧
      (changeMetallicFactor delta s).uboParams.lights1 = s.uboParams.lights1 ∧
      (changeMetallicFactor delta s).uboParams.lights2 = s.uboParams.lights2 ∧
      (changeMetallicFactor delta s).uboParams.lights3 = s.uboParams.lights3 ∧
      (changeMetallicFactor delta s).models = s.models) :=
  ⟨⟨rfl, rfl, rfl, rfl, rfl, rfl⟩, ⟨rfl, rfl, rfl, rfl, rfl, rfl⟩⟩

lemma toggleMeshes_objects (m : Meshes) : (toggleMeshes m).objects = m.objects := by
  simp only [toggleMeshes]
  split <;> rfl

lemma toggleMeshes_skybox (m : Meshes) : (toggleMeshes m).skybox = m.skybox := by
  simp only [toggleMeshes]
  split <;> rfl

lemma toggleMeshes_objectIndex (m : Meshes)
    (hlen : m.objects.length < 2 ^ 32)
    (hidx : m.objectIndex < m.objects.length) :
    (toggleMeshes m).objectIndex = (m.objectIndex + 1) % m.objects.length := by
  have hsucc : m.objectIndex + 1 ≤ m.objects.length := hidx
  have h1 : m.objectIndex + 1 < 2 ^ 32 := lt_of_le_of_lt hsucc hlen
  unfold toggleMeshes
  rw [Nat.mod_eq_of_lt h1, Nat.mod_eq_of_lt hlen]
  by_cases h : m.objects.length ≤ m.objectIndex + 1
  · have he : m.objects.length = m.objectIndex + 1 := le_antisymm h hsucc
    simp [h, he]
  · simp [h, Nat.mod_eq_of_lt (lt_of_not_le h)]

lemma toggleObject_iterate (s : VulkanExampleState)
    (hlen : s.models.objects.length < 2 ^ 32)
    (hidx : s.models.objectIndex < s.models.objects.length) (k : Nat) :
    (toggleObject^[k] s).models.objects = s.models.objects ∧
      (toggleObject^[k] s).models.objectIndex =
        (s.models.objectIndex + k) % s.models.objects.length := by
  have hN : 0 < s.models.objects.length := Nat.lt_of_le_of_lt (Nat.zero_le _) hidx
  induction k with
  | zero => simp [Nat.mod_eq_of_lt hidx]
  | succ k ih =>
      obtain ⟨ho, hi⟩ := ih
      rw [Function.iterate_succ_apply']
      have hidx' : (toggleObject^[k] s).models.objectIndex <
          (toggleObject^[k] s).models.objects.length := by
        rw [ho, hi]; exact Nat.mod_lt _ hN
      have hlen' : (toggleObject^[k] s).models.objects.length < 2 ^ 32 := by
        rw [ho]; exact hlen
      constructor
      · show (toggleMeshes (toggleObject^[k] s).models).objects = _
        rw [toggleMeshes_objects, ho]
      · show (toggleMeshes (toggleObject^[k] s).models).objectIndex = _
        rw [toggleMeshes_objectIndex _ hlen' hidx', ho, hi, Nat.mod_add_mod,
          Nat.add_assoc]

/-- C3: when the object list is non-empty and `objectIndex` is a valid
index, iterating the `toggleObject` index update `objects.length` times
returns `objectIndex` to its starting value (the size bound `< 2^32`
reflects the `uint32_t` index of the C++ code). -/
theorem toggleObject_cycle (s : VulkanExampleState)
    (hlen : s.models.objects.length < 2 ^ 32)
    (hidx : s.models.objectIndex < s.models.objects.length) :
    (toggleObject^[s.models.objects.length] s).models.objectIndex =
      s.models.objectIndex := by
  obtain ⟨-, h⟩ := toggleObject_iterate s hlen hidx s.models.objects.length
  rw [h, Nat.add_mod_right, Nat.mod_eq_of_lt hidx]

/-- Witness for C3: three objects, starting index 0, three toggles. -/
theorem toggleObject_cycle_witness :
    sampleState.models.objects.length < 2 ^ 32 ∧
    sampleState.models.objectIndex < sampleState.models.objects.length ∧
    (toggleObject^[sampleState.models.objects.length] sampleState).models.objectIndex =
      sampleState.models.objectIndex :=
  ⟨by decide, by decide, toggleObject_cycle sampleState (by decide) (by decide)⟩

/-- C4: from a valid `objectIndex`, one `toggleObject` yields a valid
index again, and the update is exactly increment modulo the object
count (in particular it wraps to 0 at the list size). -/
theorem toggleObject_valid (s : VulkanExampleState)
    (hlen : s.models.objects.length < 2 ^ 32)
    (hidx : s.models.objectIndex < s.models.objects.length) :
    (toggleObject s).models.objectIndex < (toggleObject s).models.objects.length ∧
      (toggleObject s).models.objectIndex =
        (s.models.objectIndex + 1) % s.models.objects.length := by
  have hN : 0 < s.models.objects.length := Nat.lt_of_le_of_lt (Nat.zero_le _) hidx
  have ho : (toggleObject s).models.objects = s.models.objects :=
    toggleMeshes_objects s.models
  have hi : (toggleObject s).models.objectIndex =
      (s.models.objectIndex + 1) % s.models.objects.length :=
    toggleMeshes_objectIndex s.models hlen hidx
  exact ⟨by rw [ho, hi]; exact Nat.mod_lt _ hN, hi⟩

/-- Witness for C4: three objects, starting index 2 (the wrap case). -/
theorem toggleObject_valid_witness :
    ({ sampleState with models := { sampleState.models with objectIndex := 2 } } :
        VulkanExampleState).models.objects.length < 2 ^ 32 ∧
    (2 : Nat) < sampleState.models.objects.length ∧
    ((toggleObject { sampleState with models :=
        { sampleState.models with objectIndex := 2 } }).models.objectIndex <
      (toggleObject { sampleState with models :=
        { sampleState.models with objectIndex := 2 } }).models.objects.length ∧
      (toggleObject { sampleState with models :=
        { sampleState.models with objectIndex := 2 } }).models.objectIndex = (2 + 1) % 3) :=
  ⟨by decide, by decide,
    toggleObject_valid
      { sampleState with models := { sampleState.models with objectIndex := 2 } }
      (by decide) (by decide)⟩

/-- C5: `keyPressed` dispatch: space and gamepad-X cycle the object;
F2/F3 change roughness by -0.01/+0.01; F4/F5 change metallic by
-0.01/+0.01; a key code equal to none of the six leaves the state
unchanged.  The distinctness hypotheses restate that the C++ `switch`
labels are pairwise-distinct constants. -/
theorem keyPressed_dispatch (kc : KeyCodes) (k : Nat) (s : VulkanExampleState)
    (hF2s : kc.KEY_F2 ≠ kc.KEY_SPACE) (hF2x : kc.KEY_F2 ≠ kc.GAMEPAD_BUTTON_X)
    (hF3s : kc.KEY_F3 ≠ kc.KEY_SPACE) (hF3x : kc.KEY_F3 ≠ kc.GAMEPAD_BUTTON_X)
    (hF32 : kc.KEY_F3 ≠ kc.KEY_F2)
    (hF4s : kc.KEY_F4 ≠ kc.KEY_SPACE) (hF4x : kc.KEY_F4 ≠ kc.GAMEPAD_BUTTON_X)
    (hF42 : kc.KEY_F4 ≠ kc.KEY_F2) (hF43 : kc.KEY_F4 ≠ kc.KEY_F3)
    (hF5s : kc.KEY_F5 ≠ kc.KEY_SPACE) (hF5x : kc.KEY_F5 ≠ kc.GAMEPAD_BUTTON_X)
    (hF52 : kc.KEY_F5 ≠ kc.KEY_F2) (hF53 : kc.KEY_F5 ≠ kc.KEY_F3)
    (hF54 : kc.KEY_F5 ≠ kc.KEY_F4)
    (hks : k ≠ kc.KEY_SPACE) (hkx : k ≠ kc.GAMEPAD_BUTTON_X)
    (hk2 : k ≠ kc.KEY_F2) (hk3 : k ≠ kc.KEY_F3) (hk4 : k ≠ kc.KEY_F4)
    (hk5 : k ≠ kc.KEY_F5) :
    keyPressed kc kc.KEY_SPACE s = toggleObject s ∧
    keyPressed kc kc.GAMEPAD_BUTTON_X s = toggleObject s ∧
    keyPressed kc kc.KEY_F2 s = changeRoughnessFactor (mkRat (-1) 100) s ∧
    keyPressed kc kc.KEY_F3 s = changeRoughnessFactor (mkRat 1 100) s ∧
    keyPressed kc kc.KEY_F4 s = changeMetallicFactor (mkRat (-1) 100) s ∧
    keyPressed kc kc.KEY_F5 s = changeMetallicFactor (mkRat 1 100) s ∧
    keyPressed kc k s = s := by
  refine ⟨?_, ?_, ?_, ?_, ?_, ?_, ?_⟩ <;>
    simp [keyPressed, hF2s, hF2x, hF3s, hF3x, hF32, hF4s, hF4x, hF42, hF43,
      hF5s, hF5x, hF52, hF53, hF54, hks, hkx, hk2, hk3, hk4, hk5]

/-- Witness for C5: the concrete key-code assignment, other key 7. -/
theorem keyPressed_dispatch_witness :
    keyPressed sampleKeyCodes sampleKeyCodes.KEY_SPACE sampleState = toggleObject sampleState ∧
    keyPressed sampleKeyCodes sampleKeyCodes.GAMEPAD_BUTTON_X sampleState = toggleObject sampleState ∧
    keyPressed sampleKeyCodes sampleKeyCodes.KEY_F2 sampleState =
      changeRoughnessFactor (mkRat (-1) 100) sampleState ∧
    keyPressed sampleKeyCodes sampleKeyCodes.KEY_F3 sampleState =
      changeRoughnessFactor (mkRat 1 100) sampleState ∧
    keyPressed sampleKeyCodes sampleKeyCodes.KEY_F4 sampleState =
      changeMetallicFactor (mkRat (-1) 100) sampleState ∧
    keyPressed sampleKeyCodes sampleKeyCodes.KEY_F5 sampleState =
      changeMetallicFactor (mkRat 1 100) sampleState ∧
    keyPressed sampleKeyCodes 7 sampleState = sampleState :=
  keyPressed_dispatch sampleKeyCodes 7 sampleState
    (by decide) (by decide) (by decide) (by decide) (by decide) (by decide)
    (by decide) (by decide) (by decide) (by decide) (by decide) (by decide)
    (by decide) (by decide) (by decide) (by decide) (by decide) (by decide)
    (by decide) (by decide)

/-- The four light positions of a parameter block as one tuple. -/
def lightsQuad (u : UBOParams) : Vec4 × Vec4 × Vec4 × Vec4 :=
  (u.lights0, u.lights1, u.lights2, u.lights3)

/-- C8: the lights written by `updateLights` are a function of
(paused, timer) alone -- two runs from arbitrary prior parameter blocks
agree; when paused they equal the fixed configuration for every timer,
and when unpaused lights 0 and 1 carry the sine/cosine components of the
angle `radians(timer * 360)` scaled by 20 (`sinf`, `cosf`, `radiansf`
are the external `sin`, `cos`, `glm::radians`). -/
theorem updateLights_deterministic (sinf cosf radiansf : ℚ → ℚ) (paused : Bool)
    (timer : ℚ) (u v : UBOParams) :
    lightsQuad (updateLights sinf cosf radiansf paused timer u) =
      lightsQuad (updateLights sinf cosf radiansf paused timer v) ∧
    lightsQuad (updateLights sinf cosf radiansf true timer u) =
      (⟨-15, mkRat (-15) 2, -15, 1⟩, ⟨-15, mkRat (-15) 2, 15, 1⟩,
        ⟨15, mkRat (-15) 2, 15, 1⟩, ⟨15, mkRat (-15) 2, -15, 1⟩) ∧
    (updateLights sinf cosf radiansf false timer u).lights0 =
      ⟨sinf (radiansf (timer * 360)) * 20, mkRat (-15) 2,
        cosf (radiansf (timer * 360)) * 20, 1⟩ ∧
    (updateLights sinf cosf radiansf false timer u).lights1 =
      ⟨cosf (radiansf (timer * 360)) * 20, sinf (radiansf (timer * 360)) * 20,
        15, 1⟩ := by
  refine ⟨?_, rfl, rfl, rfl⟩
  cases paused <;> rfl

/-- C10: whatever the paused flag and timer, after `updateLights` the
lights 2 and 3 hold the fixed positions `(15, -7.5, 15, 1)` and
`(15, -7.5, -15, 1)`: the function first rewrites all four lights to the
fixed configuration and the unpaused branch touches only lights 0 and 1. -/
theorem updateLights_fixed_lights23 (sinf cosf radiansf : ℚ → ℚ) (paused : Bool)
    (timer : ℚ) (u : UBOParams) :
    (updateLights sinf cosf radiansf paused timer u).lights2 =
      ⟨15, mkRat (-15) 2, 15, 1⟩ ∧
    (updateLights sinf cosf radiansf paused timer u).lights3 =
      ⟨15, mkRat (-15) 2, -15, 1⟩ := by
  cases paused <;> exact ⟨rfl, rfl⟩

/-- C6: every command buffer recorded by `buildCommandBuffers` for a
valid `objectIndex` contains exactly three indexed draws, all of the
selected object (its vertex/index buffers are the only ones bound, and
every draw uses its `indexCount`), and the buffer ends with the three
material/push-constant/draw triples: plastic at `(0,0,0)`, metal at
`(0,0,2.5)`, stone at `(0,0,-2.5)`. -/
theorem buildCommandBuffers_draws (numBuffers width height : Nat)
    (plasticDS metalDS stoneDS : Nat) (m : Meshes)
    (hidx : m.objectIndex < m.objects.length) (cb : List Cmd)
    (hcb : cb ∈ buildCommandBuffers numBuffers width height plasticDS metalDS stoneDS m) :
    cb.filter Cmd.isDraw =
      [.drawIndexed (m.objects.get ⟨m.objectIndex, hidx⟩).indexCount,
       .drawIndexed (m.objects.get ⟨m.objectIndex, hidx⟩).indexCount,
       .drawIndexed (m.objects.get ⟨m.objectIndex, hidx⟩).indexCount] ∧
    cb.filter Cmd.isBindVertex =
      [.bindVertexBuffer (m.objects.get ⟨m.objectIndex, hidx⟩).vertexBuffer] ∧
    cb.filter Cmd.isBindIndex =
      [.bindIndexBuffer (m.objects.get ⟨m.objectIndex, hidx⟩).indexBuffer] ∧
    ∃ pre, cb = pre ++
      [ .bindDescriptorSet plasticDS,
        .pushConstants ⟨0, 0, 0⟩,
        .drawIndexed (m.objects.get ⟨m.objectIndex, hidx⟩).indexCount,
        .bindDescriptorSet metalDS,
        .pushConstants ⟨0, 0, mkRat 5 2⟩,
        .drawIndexed (m.objects.get ⟨m.objectIndex, hidx⟩).indexCount,
        .bindDescriptorSet stoneDS,
        .pushConstants ⟨0, 0, mkRat (-5) 2⟩,
        .drawIndexed (m.objects.get ⟨m.objectIndex, hidx⟩).indexCount,
        .endRenderPass ] := by
  obtain ⟨i, -, rfl⟩ := List.mem_map.mp hcb
  rw [buildCommandBuffer, List.getD_eq_getElem _ _ hidx]
  refine ⟨rfl, rfl, rfl,
    ⟨[.beginRenderPass i, .setViewport width height, .setScissor width height,
      .bindPipeline,
      .bindVertexBuffer (m.objects.get ⟨m.objectIndex, hidx⟩).vertexBuffer,
      .bindIndexBuffer (m.objects.get ⟨m.objectIndex, hidx⟩).indexBuffer], rfl⟩⟩

/-- A concrete command buffer: the one `buildCommandBuffers` records for
frame buffer 0 over `sampleState` (object 0, descriptor sets 3, 4, 5). -/
def sampleCommandBuffer : List Cmd :=
  buildCommandBuffer 800 600 0 3 4 5 ⟨10, 11, 100⟩

/-- Witness for C6: the command buffer for frame buffer 0 of a two-buffer
swapchain over `sampleState`. -/
theorem buildCommandBuffers_draws_witness :
    sampleCommandBuffer.filter Cmd.isDraw =
      [.drawIndexed 100, .drawIndexed 100, .drawIndexed 100] ∧
    sampleCommandBuffer.filter Cmd.isBindVertex = [.bindVertexBuffer 10] ∧
    sampleCommandBuffer.filter Cmd.isBindIndex = [.bindIndexBuffer 11] ∧
    ∃ pre, sampleCommandBuffer = pre ++
      [ .bindDescriptorSet 3,
        .pushConstants ⟨0, 0, 0⟩,
        .drawIndexed 100,
        .bindDescriptorSet 4,
        .pushConstants ⟨0, 0, mkRat 5 2⟩,
        .drawIndexed 100,
        .bindDescriptorSet 5,
        .pushConstants ⟨0, 0, mkRat (-5) 2⟩,
        .drawIndexed 100,
        .endRenderPass ] :=
  buildCommandBuffers_draws 2 800 600 3 4 5 sampleState.models (by decide)
    sampleCommandBuffer (by decide)

/-- The (binding, resource) pairs written for descriptor set `ds` by
`setupDescriptorSets` over the materials `ms`. -/
def boundDescriptors (ms : Materials) (ds : Nat) : List (Nat × DescriptorInfo) :=
  ((setupDescriptorSets ms).2.filter fun w => w.dstSet == ds).map
    fun w => (w.dstBinding, w.info)

/-- What the spec says one material's descriptor set holds: the shared
matrices buffer at binding 0, the shared params buffer at binding 1, and
the material's five textures. -/
def specBindings (mat : PBRMaterial) : List (Nat × DescriptorInfo) :=
  [ (0, .matricesBuffer), (1, .paramsBuffer),
    (2, .image mat.textures.albedo), (3, .image mat.textures.normal),
    (4, .image mat.textures.roughness), (5, .image mat.textures.metallic),
    (6, .image mat.textures.ao) ]

/-- C7: exactly three materials (plastic, metal, stone) are created, each
owning exactly five textures; after `setupDescriptorSets` each has its
own descriptor set (the three sets are pairwise distinct) and that set
binds exactly the material's five textures plus the two shared uniform
buffers: the matrices buffer at binding 0 and the params buffer at
binding 1. -/
theorem materials_bind_five_textures (assetPath : String) :
    ((loadAssetsMaterials assetPath).plastic.name,
      (loadAssetsMaterials assetPath).metal.name,
      (loadAssetsMaterials assetPath).stone.name) = ("plastic", "metal", "stone") ∧
    (loadAssetsMaterials assetPath).plastic.textureList.length = 5 ∧
    (loadAssetsMaterials assetPath).metal.textureList.length = 5 ∧
    (loadAssetsMaterials assetPath).stone.textureList.length = 5 ∧
    ((setupDescriptorSets (loadAssetsMaterials assetPath)).1.plastic.descriptorSet ≠
        (setupDescriptorSets (loadAssetsMaterials assetPath)).1.metal.descriptorSet ∧
      (setupDescriptorSets (loadAssetsMaterials assetPath)).1.metal.descriptorSet ≠
        (setupDescriptorSets (loadAssetsMaterials assetPath)).1.stone.descriptorSet ∧
      (setupDescriptorSets (loadAssetsMaterials assetPath)).1.plastic.descriptorSet ≠
        (setupDescriptorSets (loadAssetsMaterials assetPath)).1.stone.descriptorSet) ∧
    boundDescriptors (loadAssetsMaterials assetPath)
        (setupDescriptorSets (loadAssetsMaterials assetPath)).1.plastic.descriptorSet =
      specBindings (setupDescriptorSets (loadAssetsMaterials assetPath)).1.plastic ∧
    boundDescriptors (loadAssetsMaterials assetPath)
        (setupDescriptorSets (loadAssetsMaterials assetPath)).1.metal.descriptorSet =
      specBindings (setupDescriptorSets (loadAssetsMaterials assetPath)).1.metal ∧
    boundDescriptors (loadAssetsMaterials assetPath)
        (setupDescriptorSets (loadAssetsMaterials assetPath)).1.stone.descriptorSet =
      specBindings (setupDescriptorSets (loadAssetsMaterials assetPath)).1.stone :=
  ⟨rfl, rfl, rfl, rfl,
    ⟨by simp [setupDescriptorSets], by simp [setupDescriptorSets],
      by simp [setupDescriptorSets]⟩, rfl, rfl, rfl⟩
